import Mathlib

/-!
Verification of the archan rule engine (`src/archan/criterion.py`).

The repository contains two parallel implementations of the same rule
engine: the function/registry-based one in `criterion.py` and the legacy
object-oriented `Archan` class in `checker.py`.  The design documentation
designates the `criterion.py` behaviour as canonical (the `Archan` class is
the superseded duplicate), so the definitions below are a shallow embedding
of `criterion.py`.  Python string identifiers, list indexing (`getD` with a
default models in-range indexing; all theorems restrict indices to the
matrix size), integer matrices and exceptions (`Except String`, standing
for the raised `ArchanError`) are made explicit.
-/

/-- Model of Python `s.startswith(p)` on explicit character lists. -/
def listStarts : List Char → List Char → Bool
  | _, [] => true
  | [], _ :: _ => false
  | a :: s, b :: p => a == b && listStarts s p

/-- Python `s.startswith(p)`. -/
def strStarts (s p : String) : Bool := listStarts s.data p.data

/-- Characters of a string before the first dot. -/
def takeUntilDot : List Char → List Char
  | [] => []
  | c :: cs => if c == '.' then [] else c :: takeUntilDot cs

/-- Python `e.split('.')[0]`: the substring before the first dot
(the whole string when it has no dot). -/
def topPackage (e : String) : String := String.mk (takeUntilDot e.data)

/-- Modelled from the spec: the `DesignStructureMatrix` data entity
(`archan/dsm.py` is not part of the analysed sources; only its fields
`entities`, `categories`, `dependency_matrix`, `size` and the six category
string constants are used by `criterion.py`).  `entities` is the ordered
sequence of entity names, `categories` the index-aligned categories, and
`dependency_matrix` the square matrix of dependency weights. -/
structure DSM where
  entities : List String
  categories : List String
  dependency_matrix : List (List Int)

/-- Modelled from the spec: `dsm.size` is the number N of entities. -/
def DSM.size (d : DSM) : Nat := d.entities.length

/-- Modelled from the spec: category constant `framework`. -/
def DSM.framework : String := "framework"

/-- Modelled from the spec: category constant `core_lib`. -/
def DSM.core_lib : String := "core_lib"

/-- Modelled from the spec: category constant `app_lib`. -/
def DSM.app_lib : String := "app_lib"

/-- Modelled from the spec: category constant `app_module`. -/
def DSM.app_module : String := "app_module"

/-- Modelled from the spec: category constant `broker`. -/
def DSM.broker : String := "broker"

/-- Modelled from the spec: category constant `data`. -/
def DSM.data : String := "data"

/-- The six known category values. -/
def knownCategories : List String :=
  [DSM.framework, DSM.core_lib, DSM.app_lib, DSM.app_module, DSM.broker,
   DSM.data]

/-- `dsm.categories[i]` (all uses are at in-range indices). -/
def catGet (d : DSM) (i : Nat) : String := d.categories.getD i ("")

/-- `dsm.entities[i]` (all uses are at in-range indices). -/
def entGet (d : DSM) (i : Nat) : String := d.entities.getD i ("")

/-- `packages = [e.split('.')[0] for e in ent]` from
`_generate_mediation_matrix`. -/
def pkgList (d : DSM) : List String := d.entities.map topPackage

/-- Top-level package of entity `i`. -/
def pkgGet (d : DSM) (i : Nat) : String := topPackage (entGet d i)

/-- `dsm.dependency_matrix[i][j]` (all uses are at in-range indices). -/
def depGet (d : DSM) (i j : Nat) : Int :=
  (d.dependency_matrix.getD i []).getD j 0

/-- The list of ordered index pairs traversed by the
`for i in range(n): for j in range(m):` loops, in loop order. -/
def allPairs (n m : Nat) : List (Nat × Nat) :=
  (List.range n).flatMap (fun i => (List.range m).map (fun j => (i, j)))

/-- One cell of `_generate_mediation_matrix` (criterion.py): the six-way
category dispatch; an unknown category for entity `i` raises `ArchanError`. -/
def genCell (d : DSM) (i j : Nat) : Except String Int :=
  let ci := catGet d i
  let cj := catGet d j
  let ei := entGet d i
  let pj := (pkgList d).getD j ("")
  if ci = DSM.framework then
    if cj = DSM.framework then Except.ok (-1) else Except.ok 0
  else if ci = DSM.core_lib then
    if cj = DSM.framework ∨ cj = DSM.core_lib ∨
        strStarts ei (pj ++ ".") = true ∨ i = j then
      Except.ok (-1)
    else Except.ok 0
  else if ci = DSM.app_lib then
    if cj = DSM.framework ∨ cj = DSM.core_lib ∨ cj = DSM.app_lib ∨
        strStarts ei (pj ++ ".") = true ∨ i = j then
      Except.ok (-1)
    else Except.ok 0
  else if ci = DSM.app_module then
    if cj = DSM.framework ∨ cj = DSM.core_lib ∨ cj = DSM.app_lib ∨
        cj = DSM.broker ∨ cj = DSM.data ∨
        strStarts ei (pj ++ ".") = true ∨ i = j then
      Except.ok (-1)
    else Except.ok 0
  else if ci = DSM.broker then
    if cj = DSM.app_module ∨ cj = DSM.core_lib ∨ cj = DSM.framework ∨
        strStarts ei (pj ++ ".") = true ∨ i = j then
      Except.ok (-1)
    else Except.ok 0
  else if ci = DSM.data then
    if cj = DSM.framework ∨ i = j then Except.ok (-1) else Except.ok 0
  else
    Except.error ("Mediation matrix value NOT generated for " ++
      toString i ++ ":" ++ toString j)

/-- The value of a successfully generated cell (0 on the error branch,
which is unreachable when the category of `i` is known). -/
def genCellVal (d : DSM) (i j : Nat) : Int :=
  match genCell d i j with
  | Except.ok v => v
  | Except.error _ => 0

/-- `_generate_mediation_matrix` (criterion.py): builds the size×size
mediation matrix cell by cell, propagating the `ArchanError` raised on an
unknown category. -/
def generate_mediation_matrix (d : DSM) : Except String (List (List Int)) :=
  (List.range d.size).mapM (fun i =>
    (List.range d.size).mapM (fun j => genCell d i j))

/-- The discrepancy test of `_matrices_compliance` at one cell:
`mediation = 0 and observed > 0`, or `mediation = 1 and observed < 1`. -/
def discrepancyAt (matrix cmm : List (List Int)) (p : Nat × Nat) : Bool :=
  decide (((cmm.getD p.1 []).getD p.2 0 = 0 ∧
            0 < (matrix.getD p.1 []).getD p.2 0) ∨
          ((cmm.getD p.1 []).getD p.2 0 = 1 ∧
            (matrix.getD p.1 []).getD p.2 0 < 1))

/-- One line of the `_matrices_compliance` failure message. -/
def discrepancyMessage (d : DSM) (matrix cmm : List (List Int))
    (p : Nat × Nat) : String :=
  "  Untolerated dependency at " ++ toString p.1 ++ ":" ++ toString p.2 ++
    " (" ++ entGet d p.1 ++ ":" ++ entGet d p.2 ++ "): " ++
    toString ((matrix.getD p.1 []).getD p.2 0) ++ " instead of " ++
    toString ((cmm.getD p.1 []).getD p.2 0)

/-- `_matrices_compliance` (criterion.py): raises `ArchanError` when the
row or column counts of the observed and mediation matrices differ,
otherwise returns `(no discrepancy found, joined messages)`. -/
def matrices_compliance (d : DSM) (cmm : List (List Int)) :
    Except String (Bool × String) :=
  let matrix := d.dependency_matrix
  let rows_dep := matrix.length
  let cols_dep := (matrix.headD []).length
  let rows_med := cmm.length
  let cols_med := (cmm.headD []).length
  if rows_dep ≠ rows_med ∨ cols_dep ≠ cols_med then
    Except.error ("Matrices are NOT compliant " ++
      "(number of rows/columns not equal)")
  else
    let bad := (allPairs rows_dep cols_dep).filter (discrepancyAt matrix cmm)
    Except.ok (bad.isEmpty,
      String.intercalate ("\n") (bad.map (discrepancyMessage d matrix cmm)))

/-- `check_complete_mediation` (criterion.py). -/
def check_complete_mediation (d : DSM) : Except String (Bool × String) :=
  (generate_mediation_matrix d).bind (matrices_compliance d)

/-- The dependency counting predicate of `check_economy_of_mechanism`
(criterion.py): both endpoint categories outside
`(dsm.framework, dsm.core_lib)` and a positive observed cell. -/
def eomPair (d : DSM) (p : Nat × Nat) : Bool :=
  decide (¬(catGet d p.1 = DSM.framework ∨ catGet d p.1 = DSM.core_lib) ∧
          ¬(catGet d p.2 = DSM.framework ∨ catGet d p.2 = DSM.core_lib) ∧
          0 < depGet d p.1 p.2)

/-- `dependency_number` of `check_economy_of_mechanism` (criterion.py). -/
def eomCount (d : DSM) : Nat := (allPairs d.size d.size).countP (eomPair d)

/-- The failure message of `check_economy_of_mechanism` (criterion.py). -/
def eomMessage (n size : Nat) (f : Int) : String :=
  "  Number of dependencies (" ++ toString n ++ ") " ++
    "> number of rows (" ++ toString size ++ ") " ++
    "* simplicity factor (" ++ toString f ++ ") = " ++
    toString ((size : Int) * f)

/-- `check_economy_of_mechanism` (criterion.py). -/
def check_economy_of_mechanism (d : DSM) (simplicity_factor : Int) :
    Bool × String :=
  if (eomCount d : Int) < (d.size : Int) * simplicity_factor then (true, "")
  else (false, eomMessage (eomCount d) d.size simplicity_factor)

/-- `dependent_module_number` of `check_least_common_mechanism`
(criterion.py): for each column `j`, the number of rows `i` with both
endpoint categories different from `framework` and a positive cell. -/
def lcmRawDegrees (d : DSM) : List Nat :=
  (List.range d.size).map (fun j =>
    (List.range d.size).countP (fun i =>
      decide (¬catGet d i = DSM.framework ∧ ¬catGet d j = DSM.framework ∧
              0 < depGet d i j)))

/-- `dependent_module_number` after the zeroing loop of
`check_least_common_mechanism` (criterion.py): entries whose category is
`broker` or `app_lib` are reset to 0.  The source mutates the list in
place while enumerating `dsm.categories`; under the data-model invariant
that `categories` and `entities` have the same length this is the map
below. -/
def lcmDegrees (d : DSM) : List Nat :=
  (List.range d.size).map (fun j =>
    if catGet d j = DSM.broker ∨ catGet d j = DSM.app_lib then 0
    else (lcmRawDegrees d).getD j 0)

/-- Python `max(dependent_module_number)`; for the nonempty lists of
naturals produced above this is a fold of `Nat.max` from 0. -/
def lcmMax (d : DSM) : Nat := (lcmDegrees d).foldl Nat.max 0

/-- The failure message of `check_least_common_mechanism` (criterion.py);
the quotient `size / factor` is Python true division, rendered here as a
rational. -/
def lcmMessage (name : String) (deg size : Nat) (f : Int) : String :=
  "  Dependencies to " ++ name ++ " (" ++ toString deg ++ ") " ++
    "> matrix size (" ++ toString size ++ ") / independence factor (" ++
    toString f ++ ") = " ++ toString ((size : ℚ) / (f : ℚ))

/-- `check_least_common_mechanism` (criterion.py): passes iff the maximal
adjusted in-degree is at most `size / independence_factor` under true
(rational) division; on failure the reported entity is the first index
attaining the maximum. -/
def check_least_common_mechanism (d : DSM) (independence_factor : Int) :
    Bool × String :=
  let maximum := lcmMax d
  if (maximum : ℚ) ≤ (d.size : ℚ) / (independence_factor : ℚ) then (true, "")
  else
    (false,
     lcmMessage (entGet d ((lcmDegrees d).findIdx (fun x => x == maximum)))
       maximum d.size independence_factor)

/-- The index pairs traversed by the
`for i in range(0, size - 1): for j in range(i + 1, size):` loops of
`check_layered_architecture` (criterion.py). -/
def upperPairs (n : Nat) : List (Nat × Nat) :=
  (List.range (n - 1)).flatMap (fun i =>
    (List.range' (i + 1) (n - (i + 1))).map (fun j => (i, j)))

/-- The violation test of `check_layered_architecture` (criterion.py). -/
def layeredViolation (d : DSM) (p : Nat × Nat) : Bool :=
  decide (¬catGet d p.1 = DSM.broker ∧ ¬catGet d p.2 = DSM.broker ∧
          ¬pkgGet d p.1 = pkgGet d p.2 ∧ 0 < depGet d p.1 p.2)

/-- The above-diagonal pairs reported by `check_layered_architecture`. -/
def layeredViolations (d : DSM) : List (Nat × Nat) :=
  (upperPairs d.size).filter (layeredViolation d)

/-- One line of the `check_layered_architecture` failure message. -/
def layeredMessage (d : DSM) (p : Nat × Nat) : String :=
  "  Dependency from " ++ entGet d p.1 ++ " to " ++ entGet d p.2 ++
    " breaks the layered architecture."

/-- `check_layered_architecture` (criterion.py). -/
def check_layered_architecture (d : DSM) : Bool × String :=
  ((layeredViolations d).isEmpty,
   String.intercalate ("\n") ((layeredViolations d).map (layeredMessage d)))

/-- A Python value as returned in the first component of a check function:
the booleans, `None`, or anything else (ints, strings, ...); Python's
`is True` / `is False` tests distinguish exactly the two booleans. -/
inductive PyVal where
  | bool (b : Bool)
  | none
  | int (n : Int)
  | str (s : String)
deriving DecidableEq

/-- The `Criterion` class (criterion.py): codename, texts, and an optional
check function (the class is callable; `check` may be absent). -/
structure Criterion (α : Type) where
  codename : String
  title : String
  description : String
  hint : String
  check : Option (α → PyVal × String)

/-- `Criterion.FAILED`. -/
def Criterion.FAILED : Int := 0

/-- `Criterion.PASSED`. -/
def Criterion.PASSED : Int := 1

/-- `Criterion.NOT_IMPLEMENTED`. -/
def Criterion.NOT_IMPLEMENTED : Int := -1

/-- `Criterion.IGNORED`. -/
def Criterion.IGNORED : Int := -2

/-- `Criterion.__call__` (criterion.py): maps the check's `(success,
message)` to `(PASSED, message)` when `success is True`, `(FAILED,
message)` when `success is False`, `(NOT_IMPLEMENTED, message)` otherwise,
and returns `(NOT_IMPLEMENTED, '')` when no check function is present. -/
def Criterion.call {α : Type} (c : Criterion α) (x : α) : Int × String :=
  match c.check with
  | Option.none => (Criterion.NOT_IMPLEMENTED, "")
  | Option.some f =>
    match f x with
    | (PyVal.bool true, m) => (Criterion.PASSED, m)
    | (PyVal.bool false, m) => (Criterion.FAILED, m)
    | (_, m) => (Criterion.NOT_IMPLEMENTED, m)

/-- `check_separation_of_privileges` (criterion.py): `return None, ''`. -/
def check_separation_of_privileges (_ : DSM) : PyVal × String :=
  (PyVal.none, "")

/-- `check_least_privileges` (criterion.py): `return None, ''`. -/
def check_least_privileges (_ : DSM) : PyVal × String := (PyVal.none, "")

/-- `check_open_design` (criterion.py): `return None, ''`. -/
def check_open_design (_ : DSM) : PyVal × String := (PyVal.none, "")

/-- `check_code_clean` (criterion.py): `return None, ''`. -/
def check_code_clean (_ : DSM) : PyVal × String := (PyVal.none, "")

/-- The `SEPARATION_OF_PRIVILEGES` criterion (criterion.py); the
description text is loaded from an external file and is opaque here. -/
def SEPARATION_OF_PRIVILEGES : Criterion DSM :=
  ⟨"SEPARATION_OF_PRIVILEGES", "Separation Of Privileges", "", "",
   Option.some check_separation_of_privileges⟩

/-- The `LEAST_PRIVILEGES` criterion (criterion.py). -/
def LEAST_PRIVILEGES : Criterion DSM :=
  ⟨"LEAST_PRIVILEGES", "Least Privileges", "", "",
   Option.some check_least_privileges⟩

/-- The `OPEN_DESIGN` criterion (criterion.py). -/
def OPEN_DESIGN : Criterion DSM :=
  ⟨"OPEN_DESIGN", "Open Design", "", "", Option.some check_open_design⟩

/-- The `CODE_CLEAN` criterion (criterion.py). -/
def CODE_CLEAN : Criterion DSM :=
  ⟨"CODE_CLEAN", "Code Clean", "", "", Option.some check_code_clean⟩

/-- The matrix produced by `_generate_mediation_matrix` when no category
error is raised: the table of per-cell values. -/
def mediationTable (d : DSM) : List (List Int) :=
  (List.range d.size).map (fun i =>
    (List.range d.size).map (fun j => genCellVal d i j))

/-- The categories tolerated by the category dispatch for a row of the
given category (the pure category-based disjuncts of the rule table). -/
def toleratedCats (c : String) : List String :=
  if c = DSM.core_lib then [DSM.framework, DSM.core_lib]
  else if c = DSM.app_lib then [DSM.framework, DSM.core_lib, DSM.app_lib]
  else if c = DSM.app_module then
    [DSM.framework, DSM.core_lib, DSM.app_lib, DSM.broker, DSM.data]
  else if c = DSM.broker then [DSM.app_module, DSM.core_lib, DSM.framework]
  else []

/-- The number of ordered pairs (i, j) of entity indices with a positive
observed cell whose endpoint categories both avoid `framework` and
`core_lib` (set-level restatement of the economy-of-mechanism count). -/
def eomClaimCount (d : DSM) : Nat :=
  ((Finset.range d.size ×ˢ Finset.range d.size).filter (fun p =>
    ¬(catGet d p.1 = DSM.framework ∨ catGet d p.1 = DSM.core_lib) ∧
    ¬(catGet d p.2 = DSM.framework ∨ catGet d p.2 = DSM.core_lib) ∧
    0 < depGet d p.1 p.2)).card

/-- The least-common-mechanism in-degree of entity `j` as the claim states
it: the number of entities `i` with a positive observed cell (i, j) where
neither endpoint category is `framework`, replaced by 0 when the category
of `j` is `broker` or `app_lib`. -/
def lcmClaimDeg (d : DSM) (j : Nat) : Nat :=
  if catGet d j = DSM.broker ∨ catGet d j = DSM.app_lib then 0
  else ((Finset.range d.size).filter (fun i =>
    ¬catGet d i = DSM.framework ∧ ¬catGet d j = DSM.framework ∧
    0 < depGet d i j)).card

/-- Replace every cell of the observed matrix by 1 if it is positive and
by 0 otherwise, keeping entities and categories. -/
def binarizeDsm (d : DSM) : DSM :=
  ⟨d.entities, d.categories,
   d.dependency_matrix.map (fun row =>
     row.map (fun x => if 0 < x then (1 : Int) else 0))⟩

/-- Transcription of claim C1 as stated: for a core_lib row, a mediation
cell is -1 exactly when the column category is framework or core_lib, or
the two entities share the same top-level package with i ≠ j, or i = j. -/
def claimCoreLibSamePackage : Prop :=
  ∀ d : DSM, d.categories.length = d.entities.length →
    (∀ c ∈ d.categories, c ∈ knownCategories) →
    ∀ m, generate_mediation_matrix d = Except.ok m →
    ∀ i j, i < d.size → j < d.size → catGet d i = DSM.core_lib →
    ((m.getD i []).getD j 0 = -1 ↔
      (catGet d j = DSM.framework ∨ catGet d j = DSM.core_lib ∨
       (pkgGet d i = pkgGet d j ∧ i ≠ j) ∨ i = j))

/-- Transcription of claim C2 as stated: the economy-of-mechanism check
passes exactly when the number of positive observed cells whose endpoint
categories both avoid `framework` (and only `framework`) is strictly below
size times the simplicity factor. -/
def claimEconomyExcludesOnlyFramework : Prop :=
  ∀ d : DSM, ∀ f : Int, 0 < f →
    ((check_economy_of_mechanism d f).fst = true ↔
      ((((Finset.range d.size ×ˢ Finset.range d.size).filter (fun p =>
          ¬catGet d p.1 = DSM.framework ∧ ¬catGet d p.2 = DSM.framework ∧
          0 < depGet d p.1 p.2)).card : Int) < (d.size : Int) * f))

/-- Transcription of claim C4 as stated: for i ≠ j with a row category
among core_lib, app_lib, app_module, broker and a column category outside
the row's tolerated set, the same-package tolerance applies exactly when
the two entities have equal top-level packages (a symmetric condition that
would also hold for dot-free names). -/
def claimSamePackageSymmetric : Prop :=
  ∀ d : DSM, d.categories.length = d.entities.length →
    (∀ c ∈ d.categories, c ∈ knownCategories) →
    ∀ m, generate_mediation_matrix d = Except.ok m →
    ∀ i j, i < d.size → j < d.size → i ≠ j →
    catGet d i ∈ [DSM.core_lib, DSM.app_lib, DSM.app_module, DSM.broker] →
    ¬catGet d j ∈ toleratedCats (catGet d i) →
    ((m.getD i []).getD j 0 = -1 ↔ pkgGet d i = pkgGet d j)

/-- A dependency matrix with a dot-free core_lib entity `a` and an entity
`a.b` of the same top-level package. -/
def dsmCoreLibPkg : DSM :=
  ⟨["a", "a.b"], [DSM.core_lib, DSM.data], [[0, 0], [0, 0]]⟩

/-- A dependency matrix with two app_module entities `a` and `a.b` of the
same top-level package. -/
def dsmAppModulePkg : DSM :=
  ⟨["a", "a.b"], [DSM.app_module, DSM.app_module], [[0, 0], [0, 0]]⟩

/-- A fully connected dependency matrix of two core_lib entities. -/
def dsmTwoCoreLibs : DSM :=
  ⟨["a", "b"], [DSM.core_lib, DSM.core_lib], [[1, 1], [1, 1]]⟩

/-- A fully connected dependency matrix of two app_module entities. -/
def dsmTwoModules : DSM :=
  ⟨["a", "b"], [DSM.app_module, DSM.app_module], [[1, 1], [1, 1]]⟩

theorem mapM_ok_of_ok {ε α β : Type} (l : List α) (f : α → Except ε β)
    (g : α → β) (h : ∀ a ∈ l, f a = Except.ok (g a)) :
    l.mapM f = Except.ok (l.map g) := by
  induction l with
  | nil => rfl
  | cons a t ih =>
    rw [List.mapM_cons, h a (List.mem_cons_self a t), List.map_cons,
      ih (fun x hx => h x (List.mem_cons_of_mem a hx))]
    rfl

theorem getD_map_range {β : Type} {n : Nat} (f : Nat → β) (dfl : β)
    {i : Nat} (h : i < n) : ((List.range n).map f).getD i dfl = f i := by
  rw [List.getD_eq_getElem?_getD, List.getElem?_map, List.getElem?_range h]
  rfl

theorem pkgList_getD (d : DSM) (j : Nat) :
    (pkgList d).getD j ("") = pkgGet d j := by
  unfold pkgList pkgGet entGet
  rw [List.getD_eq_getElem?_getD, List.getElem?_map,
    List.getD_eq_getElem?_getD]
  cases h : d.entities[j]? <;> simp [topPackage, takeUntilDot]

theorem mem_allPairs {n m : Nat} {p : Nat × Nat} :
    p ∈ allPairs n m ↔ p.1 < n ∧ p.2 < m := by
  unfold allPairs
  rw [List.mem_flatMap]
  constructor
  · rintro ⟨i, hi, hp⟩
    rw [List.mem_map] at hp
    obtain ⟨j, hj, rfl⟩ := hp
    exact ⟨List.mem_range.mp hi, List.mem_range.mp hj⟩
  · rintro ⟨h1, h2⟩
    exact ⟨p.1, List.mem_range.mpr h1,
      List.mem_map.mpr ⟨p.2, List.mem_range.mpr h2, Prod.mk.eta⟩⟩

theorem mem_upperPairs {n : Nat} {p : Nat × Nat} :
    p ∈ upperPairs n ↔ p.1 < p.2 ∧ p.2 < n := by
  unfold upperPairs
  rw [List.mem_flatMap]
  constructor
  · rintro ⟨i, hi, hp⟩
    rw [List.mem_map] at hp
    obtain ⟨j, hj, rfl⟩ := hp
    rw [List.mem_range'] at hj
    obtain ⟨k, hk, rfl⟩ := hj
    have hi' := List.mem_range.mp hi
    constructor
    · omega
    · omega
  · rintro ⟨h1, h2⟩
    refine ⟨p.1, List.mem_range.mpr (by omega), List.mem_map.mpr
      ⟨p.2, List.mem_range'.mpr ⟨p.2 - (p.1 + 1), by omega, by omega⟩,
       Prod.mk.eta⟩⟩

theorem genCell_eq_framework (d : DSM) (i j : Nat)
    (h : catGet d i = DSM.framework) :
    genCell d i j = Except.ok
      (if catGet d j = DSM.framework then -1 else 0) := by
  simp only [genCell, h, pkgList_getD]
  rw [if_pos trivial]
  by_cases hc : catGet d j = DSM.framework <;> simp [hc]

theorem genCell_eq_core_lib (d : DSM) (i j : Nat)
    (h : catGet d i = DSM.core_lib) :
    genCell d i j = Except.ok
      (if catGet d j = DSM.framework ∨ catGet d j = DSM.core_lib ∨
          strStarts (entGet d i) (pkgGet d j ++ ".") = true ∨ i = j
        then -1 else 0) := by
  simp only [genCell, h, pkgList_getD]
  rw [if_neg (by decide), if_pos trivial]
  by_cases hc : catGet d j = DSM.framework ∨ catGet d j = DSM.core_lib ∨
      strStarts (entGet d i) (pkgGet d j ++ ".") = true ∨ i = j <;>
    simp [hc]

theorem genCell_eq_app_lib (d : DSM) (i j : Nat)
    (h : catGet d i = DSM.app_lib) :
    genCell d i j = Except.ok
      (if catGet d j = DSM.framework ∨ catGet d j = DSM.core_lib ∨
          catGet d j = DSM.app_lib ∨
          strStarts (entGet d i) (pkgGet d j ++ ".") = true ∨ i = j
        then -1 else 0) := by
  simp only [genCell, h, pkgList_getD]
  rw [if_neg (by decide), if_neg (by decide), if_pos trivial]
  by_cases hc : catGet d j = DSM.framework ∨ catGet d j = DSM.core_lib ∨
      catGet d j = DSM.app_lib ∨
      strStarts (entGet d i) (pkgGet d j ++ ".") = true ∨ i = j <;>
    simp [hc]

theorem genCell_eq_app_module (d : DSM) (i j : Nat)
    (h : catGet d i = DSM.app_module) :
    genCell d i j = Except.ok
      (if catGet d j = DSM.framework ∨ catGet d j = DSM.core_lib ∨
          catGet d j = DSM.app_lib ∨ catGet d j = DSM.broker ∨
          catGet d j = DSM.data ∨
          strStarts (entGet d i) (pkgGet d j ++ ".") = true ∨ i = j
        then -1 else 0) := by
  simp only [genCell, h, pkgList_getD]
  rw [if_neg (by decide), if_neg (by decide), if_neg (by decide), if_pos trivial]
  by_cases hc : catGet d j = DSM.framework ∨ catGet d j = DSM.core_lib ∨
      catGet d j = DSM.app_lib ∨ catGet d j = DSM.broker ∨
      catGet d j = DSM.data ∨
      strStarts (entGet d i) (pkgGet d j ++ ".") = true ∨ i = j <;>
    simp [hc]

theorem genCell_eq_broker (d : DSM) (i j : Nat)
    (h : catGet d i = DSM.broker) :
    genCell d i j = Except.ok
      (if catGet d j = DSM.app_module ∨ catGet d j = DSM.core_lib ∨
          catGet d j = DSM.framework ∨
          strStarts (entGet d i) (pkgGet d j ++ ".") = true ∨ i = j
        then -1 else 0) := by
  simp only [genCell, h, pkgList_getD]
  rw [if_neg (by decide), if_neg (by decide), if_neg (by decide),
    if_neg (by decide), if_pos trivial]
  by_cases hc : catGet d j = DSM.app_module ∨ catGet d j = DSM.core_lib ∨
      catGet d j = DSM.framework ∨
      strStarts (entGet d i) (pkgGet d j ++ ".") = true ∨ i = j <;>
    simp [hc]

theorem genCell_eq_data (d : DSM) (i j : Nat)
    (h : catGet d i = DSM.data) :
    genCell d i j = Except.ok
      (if catGet d j = DSM.framework ∨ i = j then -1 else 0) := by
  simp only [genCell, h, pkgList_getD]
  rw [if_neg (by decide), if_neg (by decide), if_neg (by decide),
    if_neg (by decide), if_neg (by decide), if_pos trivial]
  by_cases hc : catGet d j = DSM.framework ∨ i = j <;> simp [hc]

theorem known_cases {c : String} (h : c ∈ knownCategories) :
    c = DSM.framework ∨ c = DSM.core_lib ∨ c = DSM.app_lib ∨
    c = DSM.app_module ∨ c = DSM.broker ∨ c = DSM.data := by
  simpa [knownCategories] using h

theorem genCell_ok_of_known (d : DSM) (i j : Nat)
    (h : catGet d i ∈ knownCategories) :
    genCell d i j = Except.ok (genCellVal d i j) := by
  rcases known_cases h with h1|h1|h1|h1|h1|h1
  · rw [genCellVal, genCell_eq_framework d i j h1]
  · rw [genCellVal, genCell_eq_core_lib d i j h1]
  · rw [genCellVal, genCell_eq_app_lib d i j h1]
  · rw [genCellVal, genCell_eq_app_module d i j h1]
  · rw [genCellVal, genCell_eq_broker d i j h1]
  · rw [genCellVal, genCell_eq_data d i j h1]

theorem genCellVal_of_ok (d : DSM) (i j : Nat) {v : Int}
    (h : genCell d i j = Except.ok v) : genCellVal d i j = v := by
  unfold genCellVal
  rw [h]

theorem genCellVal_cases (d : DSM) (i j : Nat)
    (h : catGet d i ∈ knownCategories) :
    genCellVal d i j = -1 ∨ genCellVal d i j = 0 := by
  rcases known_cases h with h1|h1|h1|h1|h1|h1 <;>
    [rw [genCellVal_of_ok d i j (genCell_eq_framework d i j h1)];
     rw [genCellVal_of_ok d i j (genCell_eq_core_lib d i j h1)];
     rw [genCellVal_of_ok d i j (genCell_eq_app_lib d i j h1)];
     rw [genCellVal_of_ok d i j (genCell_eq_app_module d i j h1)];
     rw [genCellVal_of_ok d i j (genCell_eq_broker d i j h1)];
     rw [genCellVal_of_ok d i j (genCell_eq_data d i j h1)]] <;>
    split <;> simp

theorem catGet_known (d : DSM)
    (hlen : d.categories.length = d.entities.length)
    (hcat : ∀ c ∈ d.categories, c ∈ knownCategories)
    {i : Nat} (hi : i < d.size) : catGet d i ∈ knownCategories := by
  have hi' : i < d.categories.length := by
    rw [hlen]; exact hi
  unfold catGet
  rw [List.getD_eq_getElem _ _ hi']
  exact hcat _ (List.getElem_mem hi')

theorem generate_ok (d : DSM)
    (hlen : d.categories.length = d.entities.length)
    (hcat : ∀ c ∈ d.categories, c ∈ knownCategories) :
    generate_mediation_matrix d = Except.ok (mediationTable d) := by
  unfold generate_mediation_matrix mediationTable
  apply mapM_ok_of_ok
  intro i hi
  apply mapM_ok_of_ok
  intro j _
  exact genCell_ok_of_known d i j
    (catGet_known d hlen hcat (List.mem_range.mp hi))

theorem mediationTable_cell (d : DSM) {i j : Nat} (hi : i < d.size)
    (hj : j < d.size) :
    ((mediationTable d).getD i []).getD j 0 = genCellVal d i j := by
  unfold mediationTable
  rw [getD_map_range _ _ hi, getD_map_range _ _ hj]

/-- Claim C8: for a dependency matrix whose categories are all among the
six known values, mediation matrix generation succeeds and every cell of
the returned size×size matrix is either -1 (tolerated) or 0 (forbidden);
the required value 1 is never produced. -/
theorem mediation_values_tolerated_or_forbidden (d : DSM)
    (hlen : d.categories.length = d.entities.length)
    (hcat : ∀ c ∈ d.categories, c ∈ knownCategories) :
    generate_mediation_matrix d = Except.ok (mediationTable d) ∧
    (mediationTable d).length = d.size ∧
    (∀ row ∈ mediationTable d, row.length = d.size) ∧
    (∀ row ∈ mediationTable d, ∀ v ∈ row, v = -1 ∨ v = 0) := by
  refine ⟨generate_ok d hlen hcat, ?_, ?_, ?_⟩
  · unfold mediationTable
    rw [List.length_map, List.length_range]
  · intro row hrow
    unfold mediationTable at hrow
    rw [List.mem_map] at hrow
    obtain ⟨i, _, rfl⟩ := hrow
    rw [List.length_map, List.length_range]
  · intro row hrow v hv
    unfold mediationTable at hrow
    rw [List.mem_map] at hrow
    obtain ⟨i, hi, rfl⟩ := hrow
    rw [List.mem_map] at hv
    obtain ⟨j, _, rfl⟩ := hv
    exact genCellVal_cases d i j
      (catGet_known d hlen hcat (List.mem_range.mp hi))

/-- Witness for C8 at a concrete two-entity matrix. -/
theorem mediation_values_tolerated_or_forbidden_witness :
    dsmCoreLibPkg.categories.length = dsmCoreLibPkg.entities.length ∧
    (∀ c ∈ dsmCoreLibPkg.categories, c ∈ knownCategories) ∧
    (generate_mediation_matrix dsmCoreLibPkg =
        Except.ok (mediationTable dsmCoreLibPkg) ∧
      (mediationTable dsmCoreLibPkg).length = dsmCoreLibPkg.size ∧
      (∀ row ∈ mediationTable dsmCoreLibPkg, row.length = dsmCoreLibPkg.size) ∧
      (∀ row ∈ mediationTable dsmCoreLibPkg, ∀ v ∈ row, v = -1 ∨ v = 0)) :=
  ⟨by decide, by decide,
   mediation_values_tolerated_or_forbidden dsmCoreLibPkg (by decide)
     (by decide)⟩

/-- Counterexample for C1: at entities `a` (core_lib) and `a.b` (data),
which share the top-level package `a`, the generated cell (0, 1) is 0,
not the -1 the stated same-package tolerance would require. -/
theorem core_lib_same_package_claim_refuted : ¬claimCoreLibSamePackage := by
  intro h
  have h2 := h dsmCoreLibPkg (by decide) (by decide) [[-1, 0], [0, -1]] rfl
    0 1 (by decide) (by decide) (by decide)
  have h3 : (([[-1, 0], [0, -1]] : List (List Int)).getD 0 []).getD 1 0 = -1 :=
    h2.mpr (Or.inr (Or.inr (Or.inl ⟨by decide, by decide⟩)))
  exact absurd h3 (by decide)

/-- Claim C1 (amended): for a core_lib row `i`, the generated mediation
cell (i, j) is -1 exactly when the category of `j` is framework or
core_lib, or entity `i`'s name starts with entity `j`'s top-level package
followed by a dot, or i = j, and is 0 otherwise. -/
theorem core_lib_mediation_row (d : DSM)
    (hlen : d.categories.length = d.entities.length)
    (hcat : ∀ c ∈ d.categories, c ∈ knownCategories)
    (i j : Nat) (hi : i < d.size) (hj : j < d.size)
    (hci : catGet d i = DSM.core_lib) :
    ∀ m, generate_mediation_matrix d = Except.ok m →
      (m.getD i []).getD j 0 =
        (if catGet d j = DSM.framework ∨ catGet d j = DSM.core_lib ∨
            strStarts (entGet d i) (pkgGet d j ++ ".") = true ∨ i = j
          then -1 else 0) := by
  intro m hm
  rw [generate_ok d hlen hcat] at hm
  injection hm with hm
  subst hm
  rw [mediationTable_cell d hi hj,
    genCellVal_of_ok d i j (genCell_eq_core_lib d i j hci)]

/-- Witness for the amended C1 at a concrete input. -/
theorem core_lib_mediation_row_witness :
    dsmCoreLibPkg.categories.length = dsmCoreLibPkg.entities.length ∧
    (∀ c ∈ dsmCoreLibPkg.categories, c ∈ knownCategories) ∧
    (0 : Nat) < dsmCoreLibPkg.size ∧ (1 : Nat) < dsmCoreLibPkg.size ∧
    catGet dsmCoreLibPkg 0 = DSM.core_lib ∧
    (([[-1, 0], [0, -1]] : List (List Int)).getD 0 []).getD 1 0 =
      (if catGet dsmCoreLibPkg 1 = DSM.framework ∨
          catGet dsmCoreLibPkg 1 = DSM.core_lib ∨
          strStarts (entGet dsmCoreLibPkg 0)
            (pkgGet dsmCoreLibPkg 1 ++ ".") = true ∨ (0 : Nat) = 1
        then -1 else 0) :=
  ⟨by decide, by decide, by decide, by decide, by decide,
   core_lib_mediation_row dsmCoreLibPkg (by decide) (by decide) 0 1
     (by decide) (by decide) (by decide) [[-1, 0], [0, -1]] rfl⟩

/-- Counterexample for C4: with app_module entities `a` and `a.b` the two
top-level packages are equal, yet the generated cell (0, 1) is 0: the
tolerance is not top-level package equality (and in particular is not
symmetric, cell (1, 0) being -1). -/
theorem same_package_claim_refuted : ¬claimSamePackageSymmetric := by
  intro h
  have h2 := h dsmAppModulePkg (by decide) (by decide) [[-1, 0], [-1, -1]]
    rfl 0 1 (by decide) (by decide) (by decide) (by decide) (by decide)
  have h3 : (([[-1, 0], [-1, -1]] : List (List Int)).getD 0 []).getD 1 0 = -1 :=
    h2.mpr (by decide)
  exact absurd h3 (by decide)

/-- Claim C4 (amended): for i ≠ j with a row category among core_lib,
app_lib, app_module, broker and a column category outside the row's
tolerated category set, the same-package tolerance clause applies exactly
when entity `i`'s name starts with entity `j`'s top-level package followed
by a dot. -/
theorem same_package_tolerance_rule (d : DSM)
    (hlen : d.categories.length = d.entities.length)
    (hcat : ∀ c ∈ d.categories, c ∈ knownCategories)
    (i j : Nat) (hi : i < d.size) (hj : j < d.size) (hij : i ≠ j)
    (hrow : catGet d i ∈
      [DSM.core_lib, DSM.app_lib, DSM.app_module, DSM.broker])
    (hcol : ¬catGet d j ∈ toleratedCats (catGet d i)) :
    ∀ m, generate_mediation_matrix d = Except.ok m →
      ((m.getD i []).getD j 0 = -1 ↔
        strStarts (entGet d i) (pkgGet d j ++ ".") = true) := by
  intro m hm
  rw [generate_ok d hlen hcat] at hm
  injection hm with hm
  subst hm
  rw [mediationTable_cell d hi hj]
  have hrow' : catGet d i = DSM.core_lib ∨ catGet d i = DSM.app_lib ∨
      catGet d i = DSM.app_module ∨ catGet d i = DSM.broker := by
    simpa using hrow
  rcases hrow' with h1|h1|h1|h1
  · rw [genCellVal_of_ok d i j (genCell_eq_core_lib d i j h1)]
    rw [h1] at hcol
    have hfw : ¬catGet d j = DSM.framework := fun he => hcol (by rw [he]; decide)
    have hcl : ¬catGet d j = DSM.core_lib := fun he => hcol (by rw [he]; decide)
    by_cases hs : strStarts (entGet d i) (pkgGet d j ++ ".") = true <;>
      simp [hs, hij, hfw, hcl]
  · rw [genCellVal_of_ok d i j (genCell_eq_app_lib d i j h1)]
    rw [h1] at hcol
    have hfw : ¬catGet d j = DSM.framework := fun he => hcol (by rw [he]; decide)
    have hcl : ¬catGet d j = DSM.core_lib := fun he => hcol (by rw [he]; decide)
    have hal : ¬catGet d j = DSM.app_lib := fun he => hcol (by rw [he]; decide)
    by_cases hs : strStarts (entGet d i) (pkgGet d j ++ ".") = true <;>
      simp [hs, hij, hfw, hcl, hal]
  · rw [genCellVal_of_ok d i j (genCell_eq_app_module d i j h1)]
    rw [h1] at hcol
    have hfw : ¬catGet d j = DSM.framework := fun he => hcol (by rw [he]; decide)
    have hcl : ¬catGet d j = DSM.core_lib := fun he => hcol (by rw [he]; decide)
    have hal : ¬catGet d j = DSM.app_lib := fun he => hcol (by rw [he]; decide)
    have hbr : ¬catGet d j = DSM.broker := fun he => hcol (by rw [he]; decide)
    have hdt : ¬catGet d j = DSM.data := fun he => hcol (by rw [he]; decide)
    by_cases hs : strStarts (entGet d i) (pkgGet d j ++ ".") = true <;>
      simp [hs, hij, hfw, hcl, hal, hbr, hdt]
  · rw [genCellVal_of_ok d i j (genCell_eq_broker d i j h1)]
    rw [h1] at hcol
    have ham : ¬catGet d j = DSM.app_module := fun he => hcol (by rw [he]; decide)
    have hcl : ¬catGet d j = DSM.core_lib := fun he => hcol (by rw [he]; decide)
    have hfw : ¬catGet d j = DSM.framework := fun he => hcol (by rw [he]; decide)
    by_cases hs : strStarts (entGet d i) (pkgGet d j ++ ".") = true <;>
      simp [hs, hij, ham, hcl, hfw]

/-- Witness for the amended C4: for `a.b` (row) against `a` (column) the
tolerance applies, the name `a.b` starting with `a.`. -/
theorem same_package_tolerance_rule_witness :
    dsmAppModulePkg.categories.length = dsmAppModulePkg.entities.length ∧
    (∀ c ∈ dsmAppModulePkg.categories, c ∈ knownCategories) ∧
    (1 : Nat) < dsmAppModulePkg.size ∧ (0 : Nat) < dsmAppModulePkg.size ∧
    (1 : Nat) ≠ 0 ∧
    catGet dsmAppModulePkg 1 ∈
      [DSM.core_lib, DSM.app_lib, DSM.app_module, DSM.broker] ∧
    ¬catGet dsmAppModulePkg 0 ∈ toleratedCats (catGet dsmAppModulePkg 1) ∧
    ((([[-1, 0], [-1, -1]] : List (List Int)).getD 1 []).getD 0 0 = -1 ↔
      strStarts (entGet dsmAppModulePkg 1)
        (pkgGet dsmAppModulePkg 0 ++ ".") = true) :=
  ⟨by decide, by decide, by decide, by decide, by decide, by decide,
   by decide,
   same_package_tolerance_rule dsmAppModulePkg (by decide) (by decide) 1 0
     (by decide) (by decide) (by decide) (by decide) (by decide)
     [[-1, 0], [-1, -1]] rfl⟩

/-- Claim C3: when the observed and mediation matrices disagree in row
count or column count (both being nonempty, as the data-model invariant
guarantees), the compliance comparison raises the distinct `ArchanError`
instead of returning a boolean result. -/
theorem compliance_dimension_mismatch_fatal (d : DSM)
    (cmm : List (List Int)) (hobs : d.dependency_matrix ≠ [])
    (hmed : cmm ≠ [])
    (hdim : d.dependency_matrix.length ≠ cmm.length ∨
      (d.dependency_matrix.headD []).length ≠ (cmm.headD []).length) :
    matrices_compliance d cmm =
      Except.error ("Matrices are NOT compliant " ++
        "(number of rows/columns not equal)") := by
  simp only [matrices_compliance]
  rw [if_pos hdim]

/-- Witness for C3: a 2×2 observed matrix against a 1×2 mediation matrix. -/
theorem compliance_dimension_mismatch_fatal_witness :
    dsmTwoCoreLibs.dependency_matrix ≠ [] ∧
    ([[0, 0]] : List (List Int)) ≠ [] ∧
    (dsmTwoCoreLibs.dependency_matrix.length ≠
        ([[0, 0]] : List (List Int)).length ∨
      (dsmTwoCoreLibs.dependency_matrix.headD []).length ≠
        (([[0, 0]] : List (List Int)).headD []).length) ∧
    matrices_compliance dsmTwoCoreLibs [[0, 0]] =
      Except.error ("Matrices are NOT compliant " ++
        "(number of rows/columns not equal)") :=
  ⟨by decide, by decide, by decide,
   compliance_dimension_mismatch_fatal dsmTwoCoreLibs [[0, 0]] (by decide)
     (by decide) (by decide)⟩

theorem countP_range_card (n : Nat) (P : Nat → Prop) [DecidablePred P] :
    (List.range n).countP (fun i => decide (P i)) =
      ((Finset.range n).filter P).card := by
  rw [List.countP_eq_length_filter]
  rfl

theorem countP_allPairs (n m : Nat) (p : Nat × Nat → Bool) :
    (allPairs n m).countP p =
      ∑ i ∈ Finset.range n, (List.range m).countP (fun j => p (i, j)) := by
  unfold allPairs
  rw [List.countP_flatMap]
  rw [show ∑ i ∈ Finset.range n, (List.range m).countP (fun j => p (i, j)) =
    ((List.range n).map
      (fun i => (List.range m).countP (fun j => p (i, j)))).sum from rfl]
  apply congrArg
  apply List.map_congr_left
  intro i _
  rw [Function.comp, List.countP_map]
  rfl

theorem eomCount_eq_claim (d : DSM) : eomCount d = eomClaimCount d := by
  unfold eomCount eomClaimCount eomPair
  rw [countP_allPairs, Finset.card_filter, Finset.sum_product]
  apply Finset.sum_congr rfl
  intro i _
  rw [countP_range_card, Finset.card_filter]

/-- Counterexample for C2: on two fully connected core_lib entities the
check passes (the implementation also excludes core_lib endpoints, so it
counts 0 dependencies), while the stated framework-only count is 4, which
is not below N * simplicity_factor = 4. -/
theorem economy_exclusion_claim_refuted :
    ¬claimEconomyExcludesOnlyFramework := by
  intro h
  exact absurd (h dsmTwoCoreLibs 2 (by decide)) (by decide)

/-- Claim C2 (amended): the economy-of-mechanism check counts the ordered
pairs (i, j) with observed(i, j) > 0 in which neither endpoint category is
framework or core_lib (the implementation excludes both), passes exactly
when this count is strictly below N * simplicity_factor, and on failure
the message reports the actual count, N and the threshold. -/
theorem economy_of_mechanism_rule (d : DSM) (f : Int) (hf : 0 < f) :
    ((check_economy_of_mechanism d f).fst = true ↔
      (eomClaimCount d : Int) < (d.size : Int) * f) ∧
    ((check_economy_of_mechanism d f).fst = false →
      (check_economy_of_mechanism d f).snd =
        eomMessage (eomClaimCount d) d.size f) := by
  have hc := eomCount_eq_claim d
  unfold check_economy_of_mechanism
  rw [hc]
  by_cases hlt : (eomClaimCount d : Int) < (d.size : Int) * f <;>
    simp [hlt]

/-- Witness for the amended C2 on two fully connected app_module
entities with the default simplicity factor 2. -/
theorem economy_of_mechanism_rule_witness :
    (0 : Int) < 2 ∧
    (((check_economy_of_mechanism dsmTwoModules 2).fst = true ↔
        (eomClaimCount dsmTwoModules : Int) <
          (dsmTwoModules.size : Int) * 2) ∧
      ((check_economy_of_mechanism dsmTwoModules 2).fst = false →
        (check_economy_of_mechanism dsmTwoModules 2).snd =
          eomMessage (eomClaimCount dsmTwoModules) dsmTwoModules.size 2)) :=
  ⟨by decide, economy_of_mechanism_rule dsmTwoModules 2 (by decide)⟩

theorem mem_layeredViolations (d : DSM) (i j : Nat) :
    (i, j) ∈ layeredViolations d ↔
      (i < j ∧ j < d.size ∧ ¬catGet d i = DSM.broker ∧
       ¬catGet d j = DSM.broker ∧ ¬pkgGet d i = pkgGet d j ∧
       0 < depGet d i j) := by
  unfold layeredViolations
  rw [List.mem_filter, mem_upperPairs]
  simp [layeredViolation, and_assoc]

/-- Claim C5: the layered-architecture check fails exactly when some pair
i < j exists with non-broker endpoint categories, different top-level
packages and a positive observed cell; the reported violations are exactly
those pairs, each line naming the source and target entities, and
below-diagonal cells (j, i) never contribute (only pairs with i < j are
inspected). -/
theorem layered_architecture_rule (d : DSM) :
    ((check_layered_architecture d).fst = false ↔
      ∃ i j, i < j ∧ j < d.size ∧ ¬catGet d i = DSM.broker ∧
        ¬catGet d j = DSM.broker ∧ ¬pkgGet d i = pkgGet d j ∧
        0 < depGet d i j) ∧
    (∀ i j, (i, j) ∈ layeredViolations d ↔
      (i < j ∧ j < d.size ∧ ¬catGet d i = DSM.broker ∧
       ¬catGet d j = DSM.broker ∧ ¬pkgGet d i = pkgGet d j ∧
       0 < depGet d i j)) ∧
    (check_layered_architecture d).snd =
      String.intercalate ("\n")
        ((layeredViolations d).map (layeredMessage d)) := by
  refine ⟨?_, fun i j => mem_layeredViolations d i j, rfl⟩
  have hfst : (check_layered_architecture d).fst =
      (layeredViolations d).isEmpty := rfl
  rw [hfst, Bool.eq_false_iff, Ne, List.isEmpty_iff]
  constructor
  · intro hne
    obtain ⟨p, hp⟩ := List.exists_mem_of_ne_nil _ hne
    refine ⟨p.1, p.2, (mem_layeredViolations d p.1 p.2).mp ?_⟩
    rwa [Prod.mk.eta]
  · rintro ⟨i, j, hcond⟩
    exact List.ne_nil_of_mem ((mem_layeredViolations d i j).mpr hcond)

theorem foldl_max_le_iff (l : List Nat) (a : Nat) (c : ℚ) :
    ((l.foldl Nat.max a : Nat) : ℚ) ≤ c ↔
      ((a : Nat) : ℚ) ≤ c ∧ ∀ x ∈ l, ((x : Nat) : ℚ) ≤ c := by
  induction l generalizing a with
  | nil => simp
  | cons b t ih =>
    rw [List.foldl_cons, ih]
    rw [show Nat.max a b = max a b from rfl, Nat.cast_max, max_le_iff]
    constructor
    · rintro ⟨⟨ha, hb⟩, ht⟩
      refine ⟨ha, fun x hx => ?_⟩
      rcases List.mem_cons.mp hx with rfl | hx
      · exact hb
      · exact ht x hx
    · rintro ⟨ha, h⟩
      exact ⟨⟨ha, h b (List.mem_cons_self b t)⟩,
        fun x hx => h x (List.mem_cons_of_mem b hx)⟩

theorem foldl_max_mem (l : List Nat) (a : Nat) :
    l.foldl Nat.max a = a ∨ l.foldl Nat.max a ∈ l := by
  induction l generalizing a with
  | nil => left; rfl
  | cons b t ih =>
    rw [List.foldl_cons]
    rcases ih (Nat.max a b) with h | h
    · rw [h]
      have hmax : Nat.max a b = max a b := rfl
      rcases max_choice a b with h2 | h2
      · left; rw [hmax, h2]
      · right; rw [hmax, h2]; exact List.mem_cons_self b t
    · right; exact List.mem_cons_of_mem b h

theorem lcmDegrees_getD (d : DSM) {j : Nat} (hj : j < d.size) :
    (lcmDegrees d).getD j 0 = lcmClaimDeg d j := by
  unfold lcmDegrees
  rw [getD_map_range _ _ hj]
  unfold lcmClaimDeg
  by_cases hb : catGet d j = DSM.broker ∨ catGet d j = DSM.app_lib
  · rw [if_pos hb, if_pos hb]
  · rw [if_neg hb, if_neg hb]
    unfold lcmRawDegrees
    rw [getD_map_range _ _ hj, countP_range_card]

theorem mem_lcmDegrees (d : DSM) {x : Nat} :
    x ∈ lcmDegrees d ↔ ∃ j, j < d.size ∧ lcmClaimDeg d j = x := by
  have key : ∀ j, j < d.size →
      (if catGet d j = DSM.broker ∨ catGet d j = DSM.app_lib then 0
        else (lcmRawDegrees d).getD j 0) = lcmClaimDeg d j := by
    intro j hj
    have h2 := lcmDegrees_getD d hj
    unfold lcmDegrees at h2
    rwa [getD_map_range _ _ hj] at h2
  unfold lcmDegrees
  rw [List.mem_map]
  constructor
  · rintro ⟨j, hj, rfl⟩
    have hj' := List.mem_range.mp hj
    exact ⟨j, hj', (key j hj').symm⟩
  · rintro ⟨j, hj, rfl⟩
    exact ⟨j, List.mem_range.mpr hj, key j hj⟩

theorem lcmDegrees_length (d : DSM) : (lcmDegrees d).length = d.size := by
  unfold lcmDegrees
  rw [List.length_map, List.length_range]

/-- Claim C6: the least-common-mechanism check computes for every entity j
its in-degree over edges avoiding framework endpoints, resets it to 0 for
broker and app_lib entities, and passes exactly when every such adjusted
in-degree is at most N divided by the independence factor under true
(rational) division; on failure the message reports the offending entity
name, its in-degree, N and the factor. -/
theorem least_common_mechanism_rule (d : DSM) (f : Int) (hn : 0 < d.size)
    (hf : 0 < f) :
    ((check_least_common_mechanism d f).fst = true ↔
      ∀ j, j < d.size →
        (lcmClaimDeg d j : ℚ) ≤ (d.size : ℚ) / (f : ℚ)) ∧
    ((check_least_common_mechanism d f).fst = false →
      ∃ j, j < d.size ∧
        ¬((lcmClaimDeg d j : ℚ) ≤ (d.size : ℚ) / (f : ℚ)) ∧
        (check_least_common_mechanism d f).snd =
          lcmMessage (entGet d j) (lcmClaimDeg d j) d.size f) := by
  have hmaxle : ∀ c : ℚ, ((lcmMax d : Nat) : ℚ) ≤ c ↔
      (0 : ℚ) ≤ c ∧ ∀ x ∈ lcmDegrees d, ((x : Nat) : ℚ) ≤ c := by
    intro c
    unfold lcmMax
    rw [foldl_max_le_iff]
    simp
  have hiff : ((lcmMax d : Nat) : ℚ) ≤ (d.size : ℚ) / (f : ℚ) ↔
      ∀ j, j < d.size →
        (lcmClaimDeg d j : ℚ) ≤ (d.size : ℚ) / (f : ℚ) := by
    rw [hmaxle]
    constructor
    · rintro ⟨_, h⟩ j hj
      exact h _ ((mem_lcmDegrees d).mpr ⟨j, hj, rfl⟩)
    · intro h
      constructor
      · exact le_trans (by positivity) (h 0 hn)
      · intro x hx
        obtain ⟨j, hj, rfl⟩ := (mem_lcmDegrees d).mp hx
        exact h j hj
  have hfst : (check_least_common_mechanism d f).fst = true ↔
      ((lcmMax d : Nat) : ℚ) ≤ (d.size : ℚ) / (f : ℚ) := by
    unfold check_least_common_mechanism
    by_cases hle : ((lcmMax d : Nat) : ℚ) ≤ (d.size : ℚ) / (f : ℚ) <;>
      simp [hle]
  refine ⟨hfst.trans hiff, ?_⟩
  intro hfalse
  have hle : ¬((lcmMax d : Nat) : ℚ) ≤ (d.size : ℚ) / (f : ℚ) := by
    intro hle
    have := hfst.mpr hle
    rw [hfalse] at this
    exact Bool.noConfusion this
  have hne : lcmDegrees d ≠ [] := by
    intro hcon
    have h2 := congrArg List.length hcon
    rw [lcmDegrees_length] at h2
    simp only [List.length_nil] at h2
    omega
  have hmem : lcmMax d ∈ lcmDegrees d := by
    rcases foldl_max_mem (lcmDegrees d) 0 with h | h
    · obtain ⟨y, hy⟩ := List.exists_mem_of_ne_nil _ hne
      have hyle : ((y : Nat) : ℚ) ≤ (((lcmDegrees d).foldl Nat.max 0 : Nat) : ℚ) :=
        ((foldl_max_le_iff (lcmDegrees d) 0 _).mp le_rfl).2 y hy
      have hy2 : y ≤ (lcmDegrees d).foldl Nat.max 0 := by exact_mod_cast hyle
      have hy0 : y = lcmMax d := by
        unfold lcmMax
        omega
      rwa [← hy0]
    · exact h
  have hex : ∃ x ∈ lcmDegrees d, (fun x => x == lcmMax d) x = true :=
    ⟨lcmMax d, hmem, by simp⟩
  have hidx := List.findIdx_lt_length_of_exists hex
  have hidx' : (lcmDegrees d).findIdx (fun x => x == lcmMax d) < d.size := by
    rwa [lcmDegrees_length] at hidx
  have hval : lcmClaimDeg d
      ((lcmDegrees d).findIdx (fun x => x == lcmMax d)) = lcmMax d := by
    have h2 := @List.findIdx_getElem _ (fun x => x == lcmMax d)
      (lcmDegrees d) hidx
    rw [← lcmDegrees_getD d hidx', List.getD_eq_getElem _ _ hidx]
    simpa using h2
  refine ⟨(lcmDegrees d).findIdx (fun x => x == lcmMax d), hidx', ?_, ?_⟩
  · rw [hval]
    exact hle
  · have hsnd : (check_least_common_mechanism d f).snd =
        lcmMessage
          (entGet d ((lcmDegrees d).findIdx (fun x => x == lcmMax d)))
          (lcmMax d) d.size f := by
      unfold check_least_common_mechanism
      rw [if_neg hle]
    rw [hsnd, hval]

/-- Witness for C6 on two fully connected app_module entities with
independence factor 2. -/
theorem least_common_mechanism_rule_witness :
    (0 : Nat) < dsmTwoModules.size ∧ (0 : Int) < 2 ∧
    (((check_least_common_mechanism dsmTwoModules 2).fst = true ↔
        ∀ j, j < dsmTwoModules.size →
          (lcmClaimDeg dsmTwoModules j : ℚ) ≤
            (dsmTwoModules.size : ℚ) / ((2 : Int) : ℚ)) ∧
      ((check_least_common_mechanism dsmTwoModules 2).fst = false →
        ∃ j, j < dsmTwoModules.size ∧
          ¬((lcmClaimDeg dsmTwoModules j : ℚ) ≤
            (dsmTwoModules.size : ℚ) / ((2 : Int) : ℚ)) ∧
          (check_least_common_mechanism dsmTwoModules 2).snd =
            lcmMessage (entGet dsmTwoModules j) (lcmClaimDeg dsmTwoModules j)
              dsmTwoModules.size 2)) :=
  ⟨by decide, by decide,
   least_common_mechanism_rule dsmTwoModules 2 (by decide) (by decide)⟩

/-- Claim C7: the separation-of-privileges, least-privileges, open-design
and code-clean criteria return NOT_IMPLEMENTED with an empty message on
every dependency matrix, including trivial ones of size 0 or 1. -/
theorem stub_criteria_not_implemented (d : DSM) :
    SEPARATION_OF_PRIVILEGES.call d = (Criterion.NOT_IMPLEMENTED, "") ∧
    LEAST_PRIVILEGES.call d = (Criterion.NOT_IMPLEMENTED, "") ∧
    OPEN_DESIGN.call d = (Criterion.NOT_IMPLEMENTED, "") ∧
    CODE_CLEAN.call d = (Criterion.NOT_IMPLEMENTED, "") :=
  ⟨rfl, rfl, rfl, rfl⟩

/-- Claim C9: invoking a criterion maps a check outcome with success
`True` to PASSED, success `False` to FAILED, any other success value to
NOT_IMPLEMENTED (keeping the message), and a criterion without a check
function returns NOT_IMPLEMENTED with an empty message. -/
theorem criterion_call_tri_state {α : Type} (c : Criterion α) (x : α) :
    (∀ f, c.check = Option.some f →
      (((f x).fst = PyVal.bool true →
          c.call x = (Criterion.PASSED, (f x).snd)) ∧
       ((f x).fst = PyVal.bool false →
          c.call x = (Criterion.FAILED, (f x).snd)) ∧
       ((f x).fst ≠ PyVal.bool true → (f x).fst ≠ PyVal.bool false →
          c.call x = (Criterion.NOT_IMPLEMENTED, (f x).snd)))) ∧
    (c.check = Option.none →
      c.call x = (Criterion.NOT_IMPLEMENTED, "")) := by
  have hsome : ∀ f, c.check = Option.some f →
      c.call x = (match f x with
        | (PyVal.bool true, m) => (Criterion.PASSED, m)
        | (PyVal.bool false, m) => (Criterion.FAILED, m)
        | (_, m) => (Criterion.NOT_IMPLEMENTED, m)) := by
    intro f hf
    unfold Criterion.call
    rw [hf]
  refine ⟨?_, ?_⟩
  · intro f hf
    rcases h2 : f x with ⟨s, m⟩
    refine ⟨?_, ?_, ?_⟩
    · intro ht
      have hts : s = PyVal.bool true := ht
      subst hts
      rw [hsome f hf, h2]
    · intro ht
      have hts : s = PyVal.bool false := ht
      subst hts
      rw [hsome f hf, h2]
    · intro ht hfa
      have ht' : s ≠ PyVal.bool true := ht
      have hf' : s ≠ PyVal.bool false := hfa
      rw [hsome f hf, h2]
      cases s with
      | bool b =>
        cases b with
        | false => exact absurd rfl hf'
        | true => exact absurd rfl ht'
      | none => rfl
      | int n => rfl
      | str s2 => rfl
  · intro hnone
    unfold Criterion.call
    rw [hnone]

/-- Witness for C9 at a concrete criterion whose check returns
`(None, "m")`. -/
theorem criterion_call_tri_state_witness :
    ((PyVal.none, "m") : PyVal × String).fst ≠ PyVal.bool true ∧
    ((PyVal.none, "m") : PyVal × String).fst ≠ PyVal.bool false ∧
    Criterion.call
      (⟨"X", "T", "", "", Option.some
        (fun _ : Nat => (PyVal.none, "m"))⟩ : Criterion Nat) 0 =
      (Criterion.NOT_IMPLEMENTED, "m") :=
  ⟨by decide, by decide,
   ((criterion_call_tri_state
      (⟨"X", "T", "", "", Option.some
        (fun _ : Nat => (PyVal.none, "m"))⟩ : Criterion Nat) 0).1
     (fun _ : Nat => (PyVal.none, "m")) rfl).2.2 (by decide) (by decide)⟩

theorem map_getD_bin (o : Option Int) :
    (Option.map (fun x => if 0 < x then (1 : Int) else 0) o).getD 0 =
      if 0 < o.getD 0 then 1 else 0 := by
  cases o with
  | none => simp
  | some x => simp

theorem bin_cell (m : List (List Int)) (i j : Nat) :
    (((m.map (fun row =>
        row.map (fun x => if 0 < x then (1 : Int) else 0))).getD i
      []).getD j 0) =
      if 0 < (m.getD i []).getD j 0 then 1 else 0 := by
  simp only [List.getD_eq_getElem?_getD]
  rw [List.getElem?_map]
  cases h : m[i]? with
  | none => simp
  | some row =>
    simp only [Option.map_some', Option.getD_some]
    rw [List.getElem?_map]
    exact map_getD_bin _

theorem bin_depGet (d : DSM) (i j : Nat) :
    depGet (binarizeDsm d) i j = if 0 < depGet d i j then 1 else 0 :=
  bin_cell d.dependency_matrix i j

theorem bin_pos (d : DSM) (i j : Nat) :
    0 < depGet (binarizeDsm d) i j ↔ 0 < depGet d i j := by
  rw [bin_depGet]
  by_cases h : 0 < depGet d i j <;> simp [h]

theorem bin_size (d : DSM) : (binarizeDsm d).size = d.size := rfl

theorem bin_catGet (d : DSM) (i : Nat) :
    catGet (binarizeDsm d) i = catGet d i := rfl

theorem bin_entGet (d : DSM) (i : Nat) :
    entGet (binarizeDsm d) i = entGet d i := rfl

theorem bin_pkgGet (d : DSM) (i : Nat) :
    pkgGet (binarizeDsm d) i = pkgGet d i := rfl

theorem bin_eomCount (d : DSM) : eomCount (binarizeDsm d) = eomCount d := by
  unfold eomCount
  show (allPairs d.size d.size).countP (eomPair (binarizeDsm d)) =
    (allPairs d.size d.size).countP (eomPair d)
  apply List.countP_congr
  intro p _
  simp only [eomPair, decide_eq_true_eq, bin_catGet, bin_pos]

theorem bin_check_economy (d : DSM) (f : Int) :
    check_economy_of_mechanism (binarizeDsm d) f =
      check_economy_of_mechanism d f := by
  unfold check_economy_of_mechanism
  simp only [bin_eomCount, bin_size]

theorem bin_lcmRawDegrees (d : DSM) :
    lcmRawDegrees (binarizeDsm d) = lcmRawDegrees d := by
  unfold lcmRawDegrees
  show (List.range d.size).map _ = (List.range d.size).map _
  apply List.map_congr_left
  intro j _
  apply List.countP_congr
  intro i _
  simp only [decide_eq_true_eq, bin_catGet, bin_pos]

theorem bin_lcmDegrees (d : DSM) :
    lcmDegrees (binarizeDsm d) = lcmDegrees d := by
  unfold lcmDegrees
  show (List.range d.size).map _ = (List.range d.size).map _
  apply List.map_congr_left
  intro j _
  simp only [bin_catGet, bin_lcmRawDegrees]

theorem bin_check_lcm (d : DSM) (f : Int) :
    check_least_common_mechanism (binarizeDsm d) f =
      check_least_common_mechanism d f := by
  unfold check_least_common_mechanism lcmMax
  simp only [bin_lcmDegrees, bin_size, bin_entGet]

theorem bin_layeredViolations (d : DSM) :
    layeredViolations (binarizeDsm d) = layeredViolations d := by
  unfold layeredViolations
  show (upperPairs d.size).filter _ = (upperPairs d.size).filter _
  apply List.filter_congr
  intro p _
  simp only [layeredViolation, decide_eq_decide, bin_catGet, bin_pkgGet,
    bin_pos]

theorem bin_check_layered (d : DSM) :
    check_layered_architecture (binarizeDsm d) =
      check_layered_architecture d := by
  unfold check_layered_architecture
  rw [bin_layeredViolations]
  exact rfl

theorem bin_generate (d : DSM) :
    generate_mediation_matrix (binarizeDsm d) =
      generate_mediation_matrix d := rfl

theorem headD_length_map_bin (m : List (List Int)) :
    ((m.map (fun row =>
        row.map (fun x => if 0 < x then (1 : Int) else 0))).headD
      []).length = (m.headD []).length := by
  cases m with
  | nil => rfl
  | cons r t => simp

theorem bin_compliance_fst (d : DSM) (cmm : List (List Int)) :
    (matrices_compliance (binarizeDsm d) cmm).map Prod.fst =
      (matrices_compliance d cmm).map Prod.fst := by
  simp only [matrices_compliance, binarizeDsm]
  rw [List.length_map, headD_length_map_bin]
  by_cases hg : d.dependency_matrix.length ≠ cmm.length ∨
      (d.dependency_matrix.headD []).length ≠ (cmm.headD []).length
  · rw [if_pos hg, if_pos hg]
  · rw [if_neg hg, if_neg hg]
    have hbad : (allPairs d.dependency_matrix.length
        (d.dependency_matrix.headD []).length).filter
        (discrepancyAt (d.dependency_matrix.map (fun row =>
          row.map (fun x => if 0 < x then (1 : Int) else 0))) cmm) =
      (allPairs d.dependency_matrix.length
        (d.dependency_matrix.headD []).length).filter
        (discrepancyAt d.dependency_matrix cmm) := by
      apply List.filter_congr
      intro p _
      unfold discrepancyAt
      rw [decide_eq_decide, bin_cell]
      by_cases hx : 0 < (d.dependency_matrix.getD p.1 []).getD p.2 0
      · rw [if_pos hx]
        omega
      · rw [if_neg hx]
        omega
    rw [hbad]
    rfl

theorem bin_check_cm (d : DSM) :
    (check_complete_mediation (binarizeDsm d)).map Prod.fst =
      (check_complete_mediation d).map Prod.fst := by
  unfold check_complete_mediation
  rw [bin_generate]
  cases hg : generate_mediation_matrix d with
  | error e => rfl
  | ok m =>
    show (matrices_compliance (binarizeDsm d) m).map Prod.fst =
      (matrices_compliance d m).map Prod.fst
    exact bin_compliance_fst d m

/-- Claim C10: the pass/fail results of economy of mechanism, least
common mechanism, layered architecture and complete mediation depend only
on which observed cells are strictly positive: replacing every cell by 1
if positive and 0 otherwise leaves each boolean outcome (and for complete
mediation the whole success-or-error outcome) unchanged. -/
theorem checks_depend_only_on_positivity (d : DSM) (f g : Int) :
    (check_economy_of_mechanism (binarizeDsm d) f).fst =
      (check_economy_of_mechanism d f).fst ∧
    (check_least_common_mechanism (binarizeDsm d) g).fst =
      (check_least_common_mechanism d g).fst ∧
    (check_layered_architecture (binarizeDsm d)).fst =
      (check_layered_architecture d).fst ∧
    (check_complete_mediation (binarizeDsm d)).map Prod.fst =
      (check_complete_mediation d).map Prod.fst :=
  ⟨by rw [bin_check_economy], by rw [bin_check_lcm],
   by rw [bin_check_layered], bin_check_cm d⟩
